import Mathlib

/-
  Verification development for the automated trading bot script (main.py).

  The script is glue code over the MetaTrader 5 gateway.  We embed it
  shallowly: the gateway is modelled as an oracle consisting of
    * a stream of responses to successive `symbol_info_tick` calls
      (`none` models a lookup whose result cannot be used, i.e. the call
      returned no tick object and the subsequent attribute access raises),
    * an `order_send` function (`none` models an exception raised by the
      gateway during submission),
    * the list of currently open positions (`positions_get`, with
      `positions_total` being its length).
  Every embedded function returns, besides its Python return value, the
  trace of gateway events and error logs it produced, and (where relevant)
  the index of the next unconsumed tick response.
-/

namespace TradingBot

/-- A bid/ask quote snapshot, the result of `symbol_info_tick`. -/
structure Tick where
  ask : Rat
  bid : Rat
deriving DecidableEq

/-- An open position as exposed by the gateway (`positions_get`).  The
script reads `ticket`, `symbol`, `volume` and `type` (0 = Buy, 1 = Sell);
the remaining fields stand for the further columns the gateway exposes,
which the script passes through untouched. -/
structure Position where
  ticket : Nat
  symbol : String
  volume : Rat
  type : Nat
  price_open : Rat
  profit : Rat
deriving DecidableEq

/-- Opaque result of a successful `order_send`. -/
structure OrderResult where
  retcode : Nat
  result_comment : String
deriving DecidableEq

/-- The request dictionary passed to `order_send`.  Market orders built by
`execute_market_order` carry no `position` key (modelled as `none`) and
explicit `sl`/`tp`; close orders built by `liquidate_position` carry the
position ticket and no `sl`/`tp` keys (modelled as `0`, which the gateway treats as unset). -/
structure OrderRequest where
  action : Nat
  position : Option Nat
  symbol : String
  volume : Rat
  type : Nat
  price : Rat
  sl : Rat
  tp : Rat
  deviation : Nat
  magic : Nat
  order_comment : String
  type_time : Nat
  type_filling : Nat
deriving DecidableEq

/-- Constant `mt5.TRADE_ACTION_DEAL`. -/
def TRADE_ACTION_DEAL : Nat := 1
/-- Constant `mt5.ORDER_TYPE_BUY`. -/
def ORDER_TYPE_BUY : Nat := 0
/-- Constant `mt5.ORDER_TYPE_SELL`. -/
def ORDER_TYPE_SELL : Nat := 1
/-- Constant `mt5.ORDER_TIME_GTC`. -/
def ORDER_TIME_GTC : Nat := 0
/-- Constant `mt5.ORDER_FILLING_IOC`. -/
def ORDER_FILLING_IOC : Nat := 1

/-- Observable events of a run: gateway calls and error log lines. -/
inductive Event where
  | tickLookup (symbol : String) (resp : Option Tick)
  | orderSend (req : OrderRequest) (resp : Option OrderResult)
  | errorLogged (msg : String)
deriving DecidableEq

/-- The gateway oracle: `tick_stream n` is the response to the `n`-th
`symbol_info_tick` call of the run, `order_send` answers submissions
(`none` = the call raised), `positions` is the list `positions_get`
returns (`positions_total` = its length). -/
structure Gateway where
  tick_stream : Nat → Option Tick
  order_send : OrderRequest → Option OrderResult
  positions : List Position

/-- The direction dictionary mapping `buy` to 0 and `sell` to 1; `none`
models a `KeyError`. -/
def direction_to_type (direction : String) : Option Nat :=
  if direction = "buy" then some 0
  else if direction = "sell" then some 1
  else none

/-- The side-inversion dictionary of `liquidate_position`, mapping 0 to
`ORDER_TYPE_SELL` and 1 to `ORDER_TYPE_BUY`; `none` models a `KeyError`. -/
def opposite_order_type (t : Nat) : Option Nat :=
  if t = 0 then some ORDER_TYPE_SELL
  else if t = 1 then some ORDER_TYPE_BUY
  else none

/-- Embeds `execute_market_order` (main.py lines 9-50).  Consumes exactly one
tick response (index `i`).  Returns the Python return value (`none` on any
caught exception) and the event trace.  Control flow mirrors the source:
the tick is fetched first; reading `.ask`/`.bid` off a missing tick raises
(caught); an unknown direction raises `KeyError` at the dictionary lookups
(caught); a raising `order_send` is caught.  Every caught exception is
logged and turned into `none`. -/
def execute_market_order (gw : Gateway) (i : Nat) (symbol : String) (volume : Rat)
    (direction : String) (stop_loss take_profit : Rat) (slippage : Nat)
    (order_comment : String) (order_magic : Nat) (fill_policy : Nat) :
    Option OrderResult × List Event :=
  match gw.tick_stream i with
  | none =>
      (none, [Event.tickLookup symbol none,
              Event.errorLogged "Error executing market order"])
  | some tick_data =>
      match direction_to_type direction with
      | none =>
          (none, [Event.tickLookup symbol (some tick_data),
                  Event.errorLogged "Error executing market order"])
      | some ty =>
          let price := if direction = "buy" then tick_data.ask else tick_data.bid
          let order_details : OrderRequest :=
            ⟨TRADE_ACTION_DEAL, none, symbol, volume, ty, price, stop_loss,
             take_profit, slippage, order_magic, order_comment,
             ORDER_TIME_GTC, fill_policy⟩
          match gw.order_send order_details with
          | none =>
              (none, [Event.tickLookup symbol (some tick_data),
                      Event.orderSend order_details none,
                      Event.errorLogged "Error executing market order"])
          | some result =>
              (some result, [Event.tickLookup symbol (some tick_data),
                             Event.orderSend order_details (some result)])

/-- Embeds `liquidate_position` (main.py lines 53-88).  Starting at tick index
`i`, the source evaluates the price dictionary (slot 0 holding the bid of
a first `symbol_info_tick` call, slot 1 the ask of a second one) eagerly:
two separate tick calls, reading the
bid of the first and the ask of the second, before the type of the
position is even looked at.  If the first call yields no usable tick, the `.bid`
access raises and the second call never happens.  Returns the Python
return value, the event trace, and the next unconsumed tick index. -/
def liquidate_position (gw : Gateway) (i : Nat) (pos : Position) (slippage : Nat)
    (order_magic : Nat) (order_comment : String) (fill_policy : Nat) :
    Option OrderResult × List Event × Nat :=
  match gw.tick_stream i with
  | none =>
      (none, [Event.tickLookup pos.symbol none,
              Event.errorLogged "Error closing position"], i + 1)
  | some t1 =>
      match gw.tick_stream (i + 1) with
      | none =>
          (none, [Event.tickLookup pos.symbol (some t1),
                  Event.tickLookup pos.symbol none,
                  Event.errorLogged "Error closing position"], i + 2)
      | some t2 =>
          match opposite_order_type pos.type with
          | none =>
              (none, [Event.tickLookup pos.symbol (some t1),
                      Event.tickLookup pos.symbol (some t2),
                      Event.errorLogged "Error closing position"], i + 2)
          | some oty =>
              let price := if pos.type = 0 then t1.bid else t2.ask
              let close_order : OrderRequest :=
                ⟨TRADE_ACTION_DEAL, some pos.ticket, pos.symbol, pos.volume,
                 oty, price, 0, 0, slippage, order_magic, order_comment,
                 ORDER_TIME_GTC, fill_policy⟩
              match gw.order_send close_order with
              | none =>
                  (none, [Event.tickLookup pos.symbol (some t1),
                          Event.tickLookup pos.symbol (some t2),
                          Event.orderSend close_order none,
                          Event.errorLogged "Error closing position"], i + 2)
              | some result =>
                  (some result, [Event.tickLookup pos.symbol (some t1),
                                 Event.tickLookup pos.symbol (some t2),
                                 Event.orderSend close_order (some result)], i + 2)

/-- Embeds the `for` loop over `positions_frame.iterrows()` of
`close_all_trades` (main.py lines 107-109): one `liquidate_position` call
per row, sequentially, collecting each (possibly `none`) result. -/
def close_loop (gw : Gateway) : Nat → List Position → Nat →
    List (Option OrderResult) × List Event
  | _, [], _ => ([], [])
  | i, pos :: rest, fill_policy =>
      let r := liquidate_position gw i pos 20 1 "" fill_policy
      let next := close_loop gw r.2.2 rest fill_policy
      (r.1 :: next.1, r.2.1 ++ next.2)

/-- Embeds `close_all_trades` (main.py lines 91-109).  If any position is open,
fetch all of them; for a direction other than `all` the lookup
`direction_to_type[order_direction]` happens with no surrounding
try/except, so a `KeyError` propagates to the caller (modelled as
`Except.error`); otherwise the (possibly filtered) rows are closed one by
one. -/
def close_all_trades (gw : Gateway) (i : Nat) (order_direction : String)
    (fill_policy : Nat) :
    Except String (List (Option OrderResult) × List Event) :=
  if gw.positions.length > 0 then
    if order_direction ≠ "all" then
      match direction_to_type order_direction with
      | none => Except.error "KeyError"
      | some ty =>
          Except.ok (close_loop gw i (gw.positions.filter (fun p => p.type == ty))
            fill_policy)
    else
      Except.ok (close_loop gw i gw.positions fill_policy)
  else
    Except.ok ([], [])

/-- Embeds `retrieve_open_positions` (main.py lines 112-123): returns the open
positions unchanged when there are any, an empty table otherwise; it makes
no gateway call other than the queries, so its event trace is empty. -/
def retrieve_open_positions (gw : Gateway) : List Position × List Event :=
  if gw.positions.length ≠ 0 then (gw.positions, [])
  else ([], [])

/-- The `config` dictionary consumed by `main`. -/
structure Config where
  account_number : Nat
  password : String
  server : String
  symbol : String
  volume : Rat
  direction : String

/-- The whole environment of a `main` run: whether `mt5.initialize()` and
`mt5.login(...)` succeed, the trading gateway oracle, and the config. -/
structure Bot where
  init_ok : Bool
  login_ok : Bool
  gw : Gateway
  config : Config

/-- Top-level observable events of `main`. -/
inductive MainEvent where
  | init (ok : Bool)
  | login (ok : Bool)
  | errorLogged (msg : String)
  | shutdown
  | gwEvent (e : Event)
deriving DecidableEq

/-- Embeds `main` (main.py lines 126-155).  Failed gateway bootstrap logs and
returns with no shutdown; failed login logs, shuts down once and returns.
On the happy path: one market order from the config (tick index 0), a
position query, then the bulk close with direction `all` (tick indices
from 1), then shutdown.  `close_all_trades` with `all` never raises, so
its error arm
is unreachable here. -/
def main (bot : Bot) : List MainEvent :=
  if bot.init_ok = false then
    [MainEvent.init false,
     MainEvent.errorLogged "MetaTrader 5 initialization failed"]
  else if bot.login_ok = false then
    [MainEvent.init true, MainEvent.login false,
     MainEvent.errorLogged "MetaTrader 5 login failed", MainEvent.shutdown]
  else
    let mo := execute_market_order bot.gw 0 bot.config.symbol bot.config.volume
      bot.config.direction 0 0 20 "" 1 ORDER_FILLING_IOC
    let rp := retrieve_open_positions bot.gw
    let ca := close_all_trades bot.gw 1 "all" ORDER_FILLING_IOC
    [MainEvent.init true, MainEvent.login true]
      ++ mo.2.map MainEvent.gwEvent
      ++ rp.2.map MainEvent.gwEvent
      ++ (match ca with
          | Except.ok R => R.2.map MainEvent.gwEvent
          | Except.error _ => [])
      ++ [MainEvent.shutdown]

/-- The order requests actually submitted within a trace, in order. -/
def sentRequests : List Event → List OrderRequest
  | [] => []
  | Event.orderSend req _ :: rest => req :: sentRequests rest
  | _ :: rest => sentRequests rest

/-- Number of `symbol_info_tick` calls for `symbol` within a trace. -/
def countTickLookups (symbol : String) : List Event → Nat
  | [] => 0
  | Event.tickLookup s _ :: rest =>
      (if s = symbol then 1 else 0) + countTickLookups symbol rest
  | _ :: rest => countTickLookups symbol rest

/-! ## Helper lemmas and concrete data for witnesses -/

lemma sentRequests_append (a b : List Event) :
    sentRequests (a ++ b) = sentRequests a ++ sentRequests b := by
  induction a with
  | nil => rfl
  | cons e rest ih =>
      cases e <;> simp [sentRequests, ih]

/-- A demonstration gateway with a constant quote stream, an always
succeeding submission channel and no open positions. -/
def gwDemo : Gateway :=
  ⟨fun _ => some ⟨2, 1⟩, fun _ => some ⟨10009, "done"⟩, []⟩

/-- A demonstration Buy position. -/
def posDemo : Position := ⟨7, "EURUSD", 3/10, 0, 0, 0⟩

/-! ## Claims -/

/-- Claim C1: closing a position of side S submits an order of the
opposite side (Buy 0 ↦ Sell 1, Sell 1 ↦ Buy 0), priced from the inverted
side of the quotes (closing a Buy uses the bid, closing a Sell uses the
ask), with the volume and ticket copied verbatim from the position. -/
theorem liquidate_position_inverts (gw : Gateway) (i : Nat) (pos : Position)
    (sp mg : Nat) (cm : String) (fp : Nat) (t1 t2 : Tick)
    (h1 : gw.tick_stream i = some t1) (h2 : gw.tick_stream (i + 1) = some t2)
    (hty : pos.type = 0 ∨ pos.type = 1) :
    ∃ r, sentRequests (liquidate_position gw i pos sp mg cm fp).2.1 = [r] ∧
      r.type = (if pos.type = 0 then ORDER_TYPE_SELL else ORDER_TYPE_BUY) ∧
      r.price = (if pos.type = 0 then t1.bid else t2.ask) ∧
      r.volume = pos.volume ∧ r.position = some pos.ticket := by
  rcases hty with h0 | hone
  · simp only [liquidate_position, h1, h2, opposite_order_type, h0,
      if_pos rfl, if_true]
    split <;> exact ⟨_, rfl, rfl, rfl, rfl, rfl⟩
  · simp only [liquidate_position, h1, h2, opposite_order_type, hone]
    norm_num
    split <;> exact ⟨_, rfl, rfl, rfl, rfl, rfl⟩

theorem liquidate_position_inverts_witness :
    ∃ r, sentRequests
        (liquidate_position gwDemo 0 posDemo 20 1 "" ORDER_FILLING_IOC).2.1 = [r] ∧
      r.type = (if posDemo.type = 0 then ORDER_TYPE_SELL else ORDER_TYPE_BUY) ∧
      r.price = (if posDemo.type = 0 then (⟨2, 1⟩ : Tick).bid
                 else (⟨2, 1⟩ : Tick).ask) ∧
      r.volume = posDemo.volume ∧ r.position = some posDemo.ticket :=
  liquidate_position_inverts gwDemo 0 posDemo 20 1 "" ORDER_FILLING_IOC
    ⟨2, 1⟩ ⟨2, 1⟩ rfl rfl (Or.inl rfl)

/-- Claim C2: for a valid symbol (the tick lookup yields a tick),
`execute_market_order` prices a Buy at the ask and a Sell at the bid, and
sets the order type to the Buy type (0) for `buy` and the Sell type (1)
for `sell`. -/
theorem execute_market_order_price (gw : Gateway) (i : Nat) (symbol : String)
    (volume sl tp : Rat) (sp : Nat) (cm : String) (mg fp : Nat) (tick : Tick)
    (h : gw.tick_stream i = some tick) :
    (∃ r, sentRequests
        (execute_market_order gw i symbol volume "buy" sl tp sp cm mg fp).2 = [r] ∧
      r.price = tick.ask ∧ r.type = ORDER_TYPE_BUY) ∧
    (∃ r, sentRequests
        (execute_market_order gw i symbol volume "sell" sl tp sp cm mg fp).2 = [r] ∧
      r.price = tick.bid ∧ r.type = ORDER_TYPE_SELL) := by
  constructor
  · refine ⟨⟨TRADE_ACTION_DEAL, none, symbol, volume, 0, tick.ask, sl, tp, sp,
      mg, cm, ORDER_TIME_GTC, fp⟩, ?_, rfl, rfl⟩
    cases hs : gw.order_send ⟨TRADE_ACTION_DEAL, none, symbol, volume, 0,
        tick.ask, sl, tp, sp, mg, cm, ORDER_TIME_GTC, fp⟩ <;>
      simp [execute_market_order, h, direction_to_type, hs, sentRequests]
  · refine ⟨⟨TRADE_ACTION_DEAL, none, symbol, volume, 1, tick.bid, sl, tp, sp,
      mg, cm, ORDER_TIME_GTC, fp⟩, ?_, rfl, rfl⟩
    cases hs : gw.order_send ⟨TRADE_ACTION_DEAL, none, symbol, volume, 1,
        tick.bid, sl, tp, sp, mg, cm, ORDER_TIME_GTC, fp⟩ <;>
      simp [execute_market_order, h, direction_to_type, hs, sentRequests]

theorem execute_market_order_price_witness :
    (∃ r, sentRequests
        (execute_market_order gwDemo 0 "EURUSD" 1 "buy" 0 0 20 "" 1
          ORDER_FILLING_IOC).2 = [r] ∧
      r.price = (⟨2, 1⟩ : Tick).ask ∧ r.type = ORDER_TYPE_BUY) ∧
    (∃ r, sentRequests
        (execute_market_order gwDemo 0 "EURUSD" 1 "sell" 0 0 20 "" 1
          ORDER_FILLING_IOC).2 = [r] ∧
      r.price = (⟨2, 1⟩ : Tick).bid ∧ r.type = ORDER_TYPE_SELL) :=
  execute_market_order_price gwDemo 0 "EURUSD" 1 0 0 20 "" 1
    ORDER_FILLING_IOC ⟨2, 1⟩ rfl

/-- A gateway whose submission channel always raises. -/
def gwFail : Gateway :=
  ⟨fun _ => some ⟨2, 1⟩, fun _ => none, [posDemo]⟩

/-- Claim C4: whenever the gateway raises during order submission, both
`execute_market_order` and `liquidate_position` log an error and return
`None`.  The embedded functions are total, so no exception from the
submission path ever reaches their caller. -/
theorem submission_failure_yields_none (gw : Gateway) (i : Nat)
    (symbol : String) (volume sl tp : Rat) (sp : Nat) (cm : String)
    (mg fp : Nat) (direction : String) (pos : Position)
    (hsend : ∀ req, gw.order_send req = none) :
    (execute_market_order gw i symbol volume direction sl tp sp cm mg fp).1 = none ∧
    Event.errorLogged "Error executing market order" ∈
      (execute_market_order gw i symbol volume direction sl tp sp cm mg fp).2 ∧
    (liquidate_position gw i pos sp mg cm fp).1 = none ∧
    Event.errorLogged "Error closing position" ∈
      (liquidate_position gw i pos sp mg cm fp).2.1 := by
  have hexec : (execute_market_order gw i symbol volume direction sl tp sp cm mg fp).1 = none ∧
      Event.errorLogged "Error executing market order" ∈
        (execute_market_order gw i symbol volume direction sl tp sp cm mg fp).2 := by
    rcases h1 : gw.tick_stream i with _ | t
    · simp [execute_market_order, h1]
    · rcases hd : direction_to_type direction with _ | ty
      · simp [execute_market_order, h1, hd]
      · simp [execute_market_order, h1, hd, hsend]
  have hliq : (liquidate_position gw i pos sp mg cm fp).1 = none ∧
      Event.errorLogged "Error closing position" ∈
        (liquidate_position gw i pos sp mg cm fp).2.1 := by
    rcases h1 : gw.tick_stream i with _ | t1
    · simp [liquidate_position, h1]
    · rcases h2 : gw.tick_stream (i + 1) with _ | t2
      · simp [liquidate_position, h1, h2]
      · rcases ho : opposite_order_type pos.type with _ | oty
        · simp [liquidate_position, h1, h2, ho]
        · simp [liquidate_position, h1, h2, ho, hsend]
  exact ⟨hexec.1, hexec.2, hliq.1, hliq.2⟩

theorem submission_failure_yields_none_witness :
    (execute_market_order gwFail 0 "EURUSD" 1 "buy" 0 0 20 "" 1
      ORDER_FILLING_IOC).1 = none ∧
    Event.errorLogged "Error executing market order" ∈
      (execute_market_order gwFail 0 "EURUSD" 1 "buy" 0 0 20 "" 1
        ORDER_FILLING_IOC).2 ∧
    (liquidate_position gwFail 0 posDemo 20 1 "" ORDER_FILLING_IOC).1 = none ∧
    Event.errorLogged "Error closing position" ∈
      (liquidate_position gwFail 0 posDemo 20 1 "" ORDER_FILLING_IOC).2.1 :=
  submission_failure_yields_none gwFail 0 "EURUSD" 1 0 0 20 "" 1
    ORDER_FILLING_IOC "buy" posDemo (fun _ => rfl)

/-- Claim C6: the position query returns an empty table when no position
is open, and otherwise exactly the positions of the gateway, every field
intact; its event trace is empty — it submits no order and performs no
state-changing call. -/
theorem retrieve_open_positions_id (gw : Gateway) :
    retrieve_open_positions gw = (gw.positions, []) := by
  rcases h : gw.positions with _ | ⟨p, rest⟩ <;>
    simp [retrieve_open_positions, h]

/-- Claim C9: at least one open position plus a direction outside
buy, sell and all makes the uncaught `direction_to_type` lookup
raise a `KeyError` that propagates to the caller. -/
theorem close_all_trades_keyerror (gw : Gateway) (i : Nat) (d : String)
    (fp : Nat) (hpos : gw.positions ≠ [])
    (hb : d ≠ "buy") (hs : d ≠ "sell") (ha : d ≠ "all") :
    close_all_trades gw i d fp = Except.error "KeyError" := by
  have hlen : gw.positions.length > 0 := List.length_pos.mpr hpos
  have hd : direction_to_type d = none := by simp [direction_to_type, hb, hs]
  simp [close_all_trades, hlen, ha, hd]

theorem close_all_trades_keyerror_witness :
    close_all_trades gwFail 0 "wat" ORDER_FILLING_IOC =
      Except.error "KeyError" :=
  close_all_trades_keyerror gwFail 0 "wat" ORDER_FILLING_IOC
    (by simp [gwFail]) (by decide) (by decide) (by decide)

/-- The loop produces exactly one (possibly null) result per position. -/
lemma close_loop_length (gw : Gateway) (fp : Nat) :
    ∀ ps i, ((close_loop gw i ps fp).1).length = ps.length := by
  intro ps
  induction ps with
  | nil => intro i; rfl
  | cons p rest ih => intro i; simp [close_loop, ih]

/-- With a live quote stream and a well-typed position, a single closer
call submits exactly one order, referencing the ticket of the position,
consumes the next two quote slots. -/
lemma liquidate_position_sent_good (gw : Gateway)
    (hg : ∀ n, gw.tick_stream n ≠ none) (i : Nat) (pos : Position)
    (sp mg : Nat) (cm : String) (fp : Nat)
    (hty : pos.type = 0 ∨ pos.type = 1) :
    (sentRequests (liquidate_position gw i pos sp mg cm fp).2.1).map
        (fun r => r.position) = [some pos.ticket] ∧
    (liquidate_position gw i pos sp mg cm fp).2.2 = i + 2 := by
  rcases h1 : gw.tick_stream i with _ | t1
  · exact absurd h1 (hg i)
  rcases h2 : gw.tick_stream (i + 1) with _ | t2
  · exact absurd h2 (hg (i + 1))
  rcases hty with h0 | hone
  · simp only [liquidate_position, h1, h2, opposite_order_type, h0,
      if_pos rfl, if_true]
    split <;> simp [sentRequests]
  · simp only [liquidate_position, h1, h2, opposite_order_type, hone]
    norm_num
    split <;> simp [sentRequests]

/-- With a live quote stream, the loop submits exactly one close order per
position, in order, each referencing the ticket of that position. -/
lemma close_loop_sent (gw : Gateway) (fp : Nat)
    (hg : ∀ n, gw.tick_stream n ≠ none) :
    ∀ ps i, (∀ p ∈ ps, p.type = 0 ∨ p.type = 1) →
      (sentRequests (close_loop gw i ps fp).2).map (fun r => r.position) =
        ps.map (fun p => some p.ticket) := by
  intro ps
  induction ps with
  | nil => intro i _; rfl
  | cons p rest ih =>
      intro i hty
      have hp := hty p (by simp)
      have hrest : ∀ q ∈ rest, q.type = 0 ∨ q.type = 1 :=
        fun q hq => hty q (by simp [hq])
      have hl := liquidate_position_sent_good gw hg i p 20 1 "" fp hp
      simp [close_loop, sentRequests_append, hl.1, ih _ hrest]

/-- Claim C3: with filter `all` the workflow invokes the Position Closer
exactly once per open position; with `buy` exactly once per Buy-side
position, in order, the submitted close orders referencing exactly the Buy
tickets (so no order is submitted for a non-Buy position); symmetrically
for `sell`. -/
theorem close_all_trades_filter (gw : Gateway) (i fp : Nat)
    (hg : ∀ n, gw.tick_stream n ≠ none)
    (hty : ∀ p ∈ gw.positions, p.type = 0 ∨ p.type = 1) :
    (∃ R, close_all_trades gw i "all" fp = Except.ok R ∧
      R.1.length = gw.positions.length ∧
      (sentRequests R.2).map (fun r => r.position) =
        gw.positions.map (fun p => some p.ticket)) ∧
    (∃ R, close_all_trades gw i "buy" fp = Except.ok R ∧
      R.1.length = (gw.positions.filter (fun p => p.type == 0)).length ∧
      (sentRequests R.2).map (fun r => r.position) =
        (gw.positions.filter (fun p => p.type == 0)).map
          (fun p => some p.ticket)) ∧
    (∃ R, close_all_trades gw i "sell" fp = Except.ok R ∧
      R.1.length = (gw.positions.filter (fun p => p.type == 1)).length ∧
      (sentRequests R.2).map (fun r => r.position) =
        (gw.positions.filter (fun p => p.type == 1)).map
          (fun p => some p.ticket)) := by
  by_cases hp : gw.positions = []
  · refine ⟨⟨([], []), ?_, ?_, ?_⟩, ⟨([], []), ?_, ?_, ?_⟩,
      ⟨([], []), ?_, ?_, ?_⟩⟩ <;>
      simp [close_all_trades, hp, sentRequests]
  · have hlen : gw.positions.length > 0 := List.length_pos.mpr hp
    have htyb : ∀ q ∈ gw.positions.filter (fun x => x.type == 0),
        q.type = 0 ∨ q.type = 1 :=
      fun q hq => hty q (List.mem_of_mem_filter hq)
    have htys : ∀ q ∈ gw.positions.filter (fun x => x.type == 1),
        q.type = 0 ∨ q.type = 1 :=
      fun q hq => hty q (List.mem_of_mem_filter hq)
    refine ⟨⟨close_loop gw i gw.positions fp, ?_,
        close_loop_length gw fp _ i, close_loop_sent gw fp hg _ i hty⟩,
      ⟨close_loop gw i (gw.positions.filter (fun x => x.type == 0)) fp, ?_,
        close_loop_length gw fp _ i, close_loop_sent gw fp hg _ i htyb⟩,
      ⟨close_loop gw i (gw.positions.filter (fun x => x.type == 1)) fp, ?_,
        close_loop_length gw fp _ i, close_loop_sent gw fp hg _ i htys⟩⟩
    · simp [close_all_trades, hlen]
    · simp [close_all_trades, hlen, direction_to_type]
    · simp [close_all_trades, hlen, direction_to_type]

/-- The open positions of the worked scenario: ticket 1 is a Buy of 0.1
lots, ticket 2 a Sell of 0.2 lots, both on EURUSD. -/
def posBuyDemo : Position := ⟨1, "EURUSD", 1/10, 0, 0, 0⟩

def posSellDemo : Position := ⟨2, "EURUSD", 2/10, 1, 0, 0⟩

/-- Gateway holding exactly the two scenario positions. -/
def gwPair : Gateway :=
  ⟨fun _ => some ⟨2, 1⟩, fun _ => some ⟨10009, "done"⟩,
   [posBuyDemo, posSellDemo]⟩

theorem close_all_trades_filter_witness :
    (∃ R, close_all_trades gwPair 0 "all" ORDER_FILLING_IOC = Except.ok R ∧
      R.1.length = gwPair.positions.length ∧
      (sentRequests R.2).map (fun r => r.position) =
        gwPair.positions.map (fun p => some p.ticket)) ∧
    (∃ R, close_all_trades gwPair 0 "buy" ORDER_FILLING_IOC = Except.ok R ∧
      R.1.length = (gwPair.positions.filter (fun p => p.type == 0)).length ∧
      (sentRequests R.2).map (fun r => r.position) =
        (gwPair.positions.filter (fun p => p.type == 0)).map
          (fun p => some p.ticket)) ∧
    (∃ R, close_all_trades gwPair 0 "sell" ORDER_FILLING_IOC = Except.ok R ∧
      R.1.length = (gwPair.positions.filter (fun p => p.type == 1)).length ∧
      (sentRequests R.2).map (fun r => r.position) =
        (gwPair.positions.filter (fun p => p.type == 1)).map
          (fun p => some p.ticket)) :=
  close_all_trades_filter gwPair 0 ORDER_FILLING_IOC
    (by intro n; simp [gwPair]) (by decide)

/-- The submitted requests of a bulk-liquidation run (`KeyError` aside). -/
def sentOf :
    Except String (List (Option OrderResult) × List Event) →
      List OrderRequest
  | Except.ok R => sentRequests R.2
  | Except.error _ => []

/-- Claim C5: on the scenario positions (ticket 1 Buy 0.1, ticket 2 Sell
0.2), bulk liquidation with filter `sell` submits exactly one close
order, and it references ticket 2, has the Buy side and volume 0.2. -/
theorem bulk_sell_concrete :
    (sentOf (close_all_trades gwPair 0 "sell" ORDER_FILLING_IOC)).length = 1 ∧
    (sentOf (close_all_trades gwPair 0 "sell" ORDER_FILLING_IOC)).map
        (fun r => (r.position, r.type, r.volume)) =
      [(some 2, ORDER_TYPE_BUY, (2/10 : Rat))] := by
  constructor <;> rfl

/-- Claim C7: a failed close of the first position in the batch does not
abort it: the loop records that null result and still processes every
remaining position (one result per remaining position). -/
theorem close_failure_continues (gw : Gateway) (i fp : Nat) (p : Position)
    (rest : List Position)
    (hfail : (liquidate_position gw i p 20 1 "" fp).1 = none) :
    (close_loop gw i (p :: rest) fp).1 =
      none :: (close_loop gw (liquidate_position gw i p 20 1 "" fp).2.2
        rest fp).1 ∧
    ((close_loop gw i (p :: rest) fp).1).length = rest.length + 1 := by
  constructor
  · simp [close_loop, hfail]
  · simp [close_loop_length]

theorem close_failure_continues_witness :
    (close_loop gwFail 0 (posDemo :: [posBuyDemo, posSellDemo])
        ORDER_FILLING_IOC).1 =
      none :: (close_loop gwFail
        (liquidate_position gwFail 0 posDemo 20 1 "" ORDER_FILLING_IOC).2.2
        [posBuyDemo, posSellDemo] ORDER_FILLING_IOC).1 ∧
    ((close_loop gwFail 0 (posDemo :: [posBuyDemo, posSellDemo])
        ORDER_FILLING_IOC).1).length = 3 :=
  close_failure_continues gwFail 0 ORDER_FILLING_IOC posDemo
    [posBuyDemo, posSellDemo] (by decide)

/-- Claim C8: a failed gateway bootstrap makes `main` log the error and
return at once — no login attempt, no order submission, no shutdown call;
a successful bootstrap followed by a failed login makes it log the error,
call shutdown exactly once and return with no order submitted.  Of the two
failure paths, only the login-failure one issues the explicit shutdown. -/
theorem main_failure_paths (bot : Bot) :
    (bot.init_ok = false →
      main bot = [MainEvent.init false,
        MainEvent.errorLogged "MetaTrader 5 initialization failed"] ∧
      (∀ b, MainEvent.login b ∉ main bot) ∧
      MainEvent.shutdown ∉ main bot ∧
      (∀ req resp, MainEvent.gwEvent (Event.orderSend req resp) ∉ main bot)) ∧
    (bot.init_ok = true → bot.login_ok = false →
      main bot = [MainEvent.init true, MainEvent.login false,
        MainEvent.errorLogged "MetaTrader 5 login failed",
        MainEvent.shutdown] ∧
      (main bot).count MainEvent.shutdown = 1 ∧
      (∀ req resp, MainEvent.gwEvent (Event.orderSend req resp) ∉ main bot)) := by
  constructor
  · intro h
    have hm : main bot = [MainEvent.init false,
        MainEvent.errorLogged "MetaTrader 5 initialization failed"] := by
      simp [main, h]
    exact ⟨hm, fun b => by simp [hm], by simp [hm], fun req resp => by simp [hm]⟩
  · intro h1 h2
    have hm : main bot = [MainEvent.init true, MainEvent.login false,
        MainEvent.errorLogged "MetaTrader 5 login failed",
        MainEvent.shutdown] := by
      simp [main, h1, h2]
    refine ⟨hm, ?_, fun req resp => by simp [hm]⟩
    rw [hm]
    rfl

/-- The `config` dictionary used in the `main` witnesses. -/
def cfgDemo : Config := ⟨0, "", "", "EURUSD", 1/10, "buy"⟩

/-- A bot whose gateway bootstrap fails. -/
def botNoInit : Bot := ⟨false, false, gwDemo, cfgDemo⟩

/-- A bot whose bootstrap succeeds but whose login fails. -/
def botNoLogin : Bot := ⟨true, false, gwDemo, cfgDemo⟩

theorem main_failure_paths_witness :
    main botNoInit = [MainEvent.init false,
      MainEvent.errorLogged "MetaTrader 5 initialization failed"] ∧
    main botNoLogin = [MainEvent.init true, MainEvent.login false,
      MainEvent.errorLogged "MetaTrader 5 login failed",
      MainEvent.shutdown] ∧
    (main botNoLogin).count MainEvent.shutdown = 1 :=
  ⟨((main_failure_paths botNoInit).1 rfl).1,
   ((main_failure_paths botNoLogin).2 rfl rfl).1,
   ((main_failure_paths botNoLogin).2 rfl rfl).2.1⟩

/-- A gateway whose tick stream yields a different quote on every call. -/
def gwVar : Gateway :=
  ⟨fun n => if n = 0 then some ⟨2, 1⟩ else some ⟨3, 2⟩,
   fun _ => some ⟨10009, "done"⟩, []⟩

/-- Claim C10: one closer call performs two successive tick lookups for
the symbol of the position — whenever the first lookup yields a tick,
exactly
two lookup events occur, for every position type and every submission
outcome, the second response coming from the next slot of the quote
stream, so the bid (read from the first tick) and the ask (read from the
second) may belong to different ticks; the selected price is the first
bid of the first tick for a Buy and the ask of the second for a Sell;
and a failure
of either lookup makes the whole close fail with no order submitted (when
the first lookup already fails, only that one call happens). -/
theorem liquidate_two_lookups (gw : Gateway) (i : Nat) (pos : Position)
    (sp mg : Nat) (cm : String) (fp : Nat) :
    (∀ t1, gw.tick_stream i = some t1 →
      countTickLookups pos.symbol
        (liquidate_position gw i pos sp mg cm fp).2.1 = 2) ∧
    (∀ t1 t2, gw.tick_stream i = some t1 →
      gw.tick_stream (i + 1) = some t2 →
      pos.type = 0 ∨ pos.type = 1 →
      (sentRequests (liquidate_position gw i pos sp mg cm fp).2.1).map
          (fun r => r.price) =
        [if pos.type = 0 then t1.bid else t2.ask]) ∧
    (gw.tick_stream i = none →
      (liquidate_position gw i pos sp mg cm fp).1 = none ∧
      sentRequests (liquidate_position gw i pos sp mg cm fp).2.1 = [] ∧
      countTickLookups pos.symbol
        (liquidate_position gw i pos sp mg cm fp).2.1 = 1) ∧
    (∀ t1, gw.tick_stream i = some t1 →
      gw.tick_stream (i + 1) = none →
      (liquidate_position gw i pos sp mg cm fp).1 = none ∧
      sentRequests (liquidate_position gw i pos sp mg cm fp).2.1 = []) := by
  refine ⟨?_, ?_, ?_, ?_⟩
  · intro t1 h1
    rcases h2 : gw.tick_stream (i + 1) with _ | t2
    · simp [liquidate_position, h1, h2, countTickLookups]
    · rcases ho : opposite_order_type pos.type with _ | oty
      · simp [liquidate_position, h1, h2, ho, countTickLookups]
      · simp only [liquidate_position, h1, h2, ho]
        split <;> simp [countTickLookups]
  · intro t1 t2 h1 h2 hty
    rcases hty with h0 | hone
    · simp only [liquidate_position, h1, h2, opposite_order_type, h0,
        if_pos rfl, if_true]
      split <;> simp [sentRequests, h0]
    · simp only [liquidate_position, h1, h2, opposite_order_type, hone]
      norm_num
      split <;> simp [sentRequests, hone]
  · intro h1
    simp [liquidate_position, h1, sentRequests, countTickLookups]
  · intro t1 h1 h2
    simp [liquidate_position, h1, h2, sentRequests]

theorem liquidate_two_lookups_witness :
    countTickLookups posSellDemo.symbol
      (liquidate_position gwVar 0 posSellDemo 20 1 ""
        ORDER_FILLING_IOC).2.1 = 2 ∧
    (sentRequests (liquidate_position gwVar 0 posSellDemo 20 1 ""
        ORDER_FILLING_IOC).2.1).map (fun r => r.price) =
      [if posSellDemo.type = 0 then (⟨2, 1⟩ : Tick).bid
       else (⟨3, 2⟩ : Tick).ask] :=
  ⟨(liquidate_two_lookups gwVar 0 posSellDemo 20 1 ""
      ORDER_FILLING_IOC).1 ⟨2, 1⟩ rfl,
   (liquidate_two_lookups gwVar 0 posSellDemo 20 1 ""
      ORDER_FILLING_IOC).2.1 ⟨2, 1⟩ ⟨3, 2⟩ rfl rfl (Or.inr rfl)⟩

end TradingBot
